import Mathlib

set_option maxRecDepth 100000

/-!
Verification of `src/app-webpack/lib/quasar-config-file.js` (Quasar CLI, webpack flavour).

The file below is a shallow embedding of the quasar.config resolution pipeline:
dynamic JS values are modelled by the inductive `JsVal`; the module's pure helper
functions (`formatPublicPath`, `formatRouterBase`, `parseAssetProperty`,
`uniquePathFilter`, ...) are translated directly; the stateful parts
(`onAddress`, `QuasarConfigFile.#computeConfig`, `#build`, `#buildAndWatch`,
`read`/`watch`) are translated as explicit state-passing functions over a
session-state record, with out-of-repository collaborators (esbuild, the
network prober, the env-file reader, app extensions, file validations)
supplied as parameters in an `Externals` record.
-/

/-- A dynamic JavaScript value: the universe over which `quasar.config`
objects live. `fn` and `regex` are opaque tags for function / RegExp values
created by the pipeline (they are carried around but never inspected
structurally by the modelled code). -/
inductive JsVal where
  | undefined
  | null
  | bool (b : Bool)
  | num (n : Rat)
  | str (s : String)
  | arr (elems : List JsVal)
  | obj (fields : List (String × JsVal))
  | fn (tag : String)
  | regex (src : String)
  deriving Repr

namespace JsVal

/-- JavaScript strict equality `===` restricted to the comparisons the source
performs: primitives compare by value; object/array/function values stored in
one compile cycle and compared against values built in another cycle are
distinct heap references, hence `===` is `false` for them. -/
def sEq : JsVal → JsVal → Bool
  | .undefined, .undefined => true
  | .null, .null => true
  | .bool a, .bool b => a == b
  | .num a, .num b => a == b
  | .str a, .str b => a == b
  | _, _ => false

/-- JavaScript truthiness: `undefined`, `null`, `false`, `0`, `""` are falsy. -/
def truthy : JsVal → Bool
  | .undefined => false
  | .null => false
  | .bool b => b
  | .num n => !(n == 0)
  | .str s => !(s == "")
  | .arr _ => true
  | .obj _ => true
  | .fn _ => true
  | .regex _ => true

/-- `Object(x) === x`: true exactly for object-like values
(plain objects, arrays, functions, RegExp). -/
def isObjectLike : JsVal → Bool
  | .obj _ => true
  | .arr _ => true
  | .fn _ => true
  | .regex _ => true
  | _ => false

def isObj : JsVal → Bool
  | .obj _ => true
  | _ => false

def isArr : JsVal → Bool
  | .arr _ => true
  | _ => false

def lookupField (k : String) : List (String × JsVal) → Option JsVal
  | [] => none
  | (k', v) :: rest => if k' == k then some v else lookupField k rest

/-- Property read `v[k]`: `undefined` when absent or when `v` is not an object. -/
def jget (v : JsVal) (k : String) : JsVal :=
  match v with
  | .obj fs => (lookupField k fs).getD .undefined
  | _ => .undefined

/-- Two-level property read `v[k1][k2]`. -/
def jget2 (v : JsVal) (k1 k2 : String) : JsVal :=
  jget (jget v k1) k2

def setField (k : String) (w : JsVal) : List (String × JsVal) → List (String × JsVal)
  | [] => [(k, w)]
  | (k', v) :: rest => if k' == k then (k, w) :: rest else (k', v) :: setField k w rest

/-- Property write `v[k] = w` (update in place, append when absent). Writes to
non-objects are dropped: every write site in the source has an object parent
(guaranteed by the default skeleton merge). -/
def jset (v : JsVal) (k : String) (w : JsVal) : JsVal :=
  match v with
  | .obj fs => .obj (setField k w fs)
  | v => v

/-- Two-level property write `v[k1][k2] = w`. -/
def jset2 (v : JsVal) (k1 k2 : String) (w : JsVal) : JsVal :=
  jset v k1 (jset (jget v k1) k2 w)

/-- Property deletion `delete v[k]`. -/
def jdel (v : JsVal) (k : String) : JsVal :=
  match v with
  | .obj fs => .obj (fs.filter (fun kv => !(kv.1 == k)))
  | v => v

def hasKey (v : JsVal) (k : String) : Bool :=
  match v with
  | .obj fs => (lookupField k fs).isSome
  | _ => false

/-- The element list of an array value (`[]` for non-arrays). -/
def elemsOf : JsVal → List JsVal
  | .arr xs => xs
  | _ => []

/-- `webpack-merge`'s `merge`, fuel-indexed so that it is structurally
recursive and computable by kernel reduction: plain objects are merged deep
(left keys first, right-only keys appended), arrays are concatenated, and for
every other combination the right value wins. The fuel (64 at every use site)
strictly exceeds the nesting depth of every object the pipeline builds. -/
def jsMergeF : Nat → JsVal → JsVal → JsVal
  | 0, _, b => b
  | fuel + 1, .obj fa, .obj fb =>
    .obj ((fa.map (fun kv =>
        match lookupField kv.1 fb with
        | some w => (kv.1, jsMergeF fuel kv.2 w)
        | none => kv))
      ++ fb.filter (fun kv => (lookupField kv.1 fa).isNone))
  | _ + 1, .arr xs, .arr ys => .arr (xs ++ ys)
  | _ + 1, _, b => b

def jsMerge (a b : JsVal) : JsVal := jsMergeF 64 a b

/-- `merge(a, b, c)` (three sources, left to right). -/
def jsMerge3 (a b c : JsVal) : JsVal := jsMerge (jsMerge a b) c

/-- `merge(a, b, c, d)` (four sources, left to right). -/
def jsMerge4 (a b c d : JsVal) : JsVal := jsMerge (jsMerge3 a b c) d

/-- `Object.assign(target, source)`: shallow, right wins. -/
def jsAssign (a b : JsVal) : JsVal :=
  match a, b with
  | .obj fa, .obj fb => .obj (fb.foldl (fun acc kv => setField kv.1 kv.2 acc) fa)
  | a, _ => a

/-- String interpolation of a value into a template literal. -/
def jsTemplate : JsVal → String
  | .undefined => "undefined"
  | .null => "null"
  | .bool b => if b then "true" else "false"
  | .num n => if n.den == 1 then Int.repr n.num else Int.repr n.num ++ "/" ++ Nat.repr n.den
  | .str s => s
  | .arr _ => ""
  | .obj _ => "[object Object]"
  | .fn _ => "function"
  | .regex s => s

end JsVal

namespace Quasar

open JsVal

/-! ### Character-list string primitives

The standard `String.startsWith` / `endsWith` / `toLower` / `drop` / `splitOn`
are defined by well-founded recursion over byte positions and do not reduce
inside the kernel, so the development re-implements them structurally over
`List Char` (a `String` is definitionally its character list). -/

def listIsPrefix : List Char → List Char → Bool
  | [], _ => true
  | _, [] => false
  | p :: ps, c :: cs => p == c && listIsPrefix ps cs

def strStartsWith (s p : String) : Bool := listIsPrefix p.data s.data

def strEndsWith (s p : String) : Bool := listIsPrefix p.data.reverse s.data.reverse

def charLower (c : Char) : Char :=
  if 'A' ≤ c && c ≤ 'Z' then Char.ofNat (c.toNat + 32) else c

def strLower (s : String) : String := ⟨s.data.map charLower⟩

def strDrop (s : String) (n : Nat) : String := ⟨s.data.drop n⟩

def splitOnSlash (cs : List Char) : List (List Char) :=
  match cs with
  | [] => [[]]
  | c :: rest =>
    match splitOnSlash rest with
    | [] => [[]]
    | seg :: segs => if c == '/' then [] :: (seg :: segs) else (c :: seg) :: segs

/-- `Array.prototype.join(sep)`. -/
def joinSep (sep : String) : List String → String
  | [] => ""
  | [x] => x
  | x :: xs => x ++ sep ++ joinSep sep xs

def ratStr (q : Rat) : String :=
  if q.den == 1 then Int.repr q.num else Int.repr q.num ++ "/" ++ Nat.repr q.den

/-- The integer `n` as a rational, built structurally (so that it reduces
inside the kernel, which `Rat.add` and `Rat.div` do not). -/
def ratInt (n : Int) : Rat := ⟨n, 1, one_ne_zero, Nat.coprime_one_right _⟩

/-- The JS number `0.8` (= 4/5) built structurally. -/
def ratFourFifths : Rat := ⟨4, 5, by decide, by decide⟩

/-! ### Module-level pure helpers (lines 17, 31, 48-115 of the source) -/

/-- `urlRegex = /^http(s)?:\/\//i` applied via `.test`. -/
def urlRegexTest (s : String) : Bool :=
  let l := strLower s
  strStartsWith l "http://" || strStartsWith l "https://"

/-- `quasarComponentRE = /^(Q[A-Z]|q-)/` applied via `.test` (on the string
form of the tested value). -/
def quasarComponentTest (s : String) : Bool :=
  strStartsWith s "q-"
    || (match s.data with
        | 'Q' :: c :: _ => c.isUpper
        | _ => false)

/-- `escapeHTMLTagContent`: strips `<` and `>`; empty for falsy input.
Non-string truthy inputs are outside the modelled domain (package.json
`productName` is a string when present). -/
def escapeHTMLTagContent (v : JsVal) : JsVal :=
  match v with
  | .str s => if s == "" then .str "" else .str ⟨s.toList.filter (fun c => c ≠ '<' && c ≠ '>')⟩
  | v => if truthy v then v else .str ""

/-- `escapeHTMLAttribute`: strips `"` characters; empty for falsy input. -/
def escapeHTMLAttribute (v : JsVal) : JsVal :=
  match v with
  | .str s => if s == "" then .str "" else .str ⟨s.toList.filter (fun c => c ≠ '"')⟩
  | v => if truthy v then v else .str ""

/-- `formatPublicPath` (source lines 59-77). -/
def formatPublicPath (publicPath : String) : String :=
  if publicPath == "" then "/"
  else
    let p1 := if strEndsWith publicPath "/" then publicPath else publicPath ++ "/"
    if urlRegexTest p1 then p1
    else if strStartsWith p1 "/" then p1
    else "/" ++ p1

/-- Splits a character list at the first character satisfying none of the
allowed set: returns (longest admissible run, remainder). -/
def spanNotIn (stop : List Char) : List Char → List Char × List Char
  | [] => ([], [])
  | c :: cs =>
    if stop.contains c then ([], c :: cs)
    else
      let (run, rest) := spanNotIn stop cs
      (c :: run, rest)

/-- Capture group 5 of
`/^(https?\:)\/\/(([^:\/?#]*)(?:\:([0-9]+))?)([\/]{0,1}[^?#]*)(\?[^#]*|)(#.*|)$/`
(the path component of the URL): `none` when the regex does not match
(in which case the source's `match[ 5 ]` access would throw). -/
def urlPathGroup (s : String) : Option String :=
  let afterScheme : Option (List Char) :=
    if strStartsWith s "http://" then some (s.data.drop 7)
    else if strStartsWith s "https://" then some (s.data.drop 8)
    else none
  match afterScheme with
  | none => none
  | some rest =>
    -- group 2: host `[^:\/?#]*` with optional `\:[0-9]+` port
    let (_, afterHost) := spanNotIn [':', '/', '?', '#'] rest
    let afterAuthority :=
      match afterHost with
      | ':' :: cs =>
        -- the optional `\:[0-9]+` port group matches only when digits follow
        if (cs.takeWhile Char.isDigit).isEmpty then ':' :: cs
        else cs.dropWhile Char.isDigit
      | other => other
    -- group 5: `[\/]{0,1}[^?#]*` = everything up to the first `?` or `#`
    let (path, _) := spanNotIn ['?', '#'] afterAuthority
    some ⟨path⟩

/-- `formatRouterBase` (source lines 79-86). `none` models the `TypeError`
thrown when the input starts with `"http"` yet fails the URL regex
(`match` is `null` and `match[ 5 ]` throws); every call site in the module
passes either a non-`http`-leading string or a well-formed URL. -/
def formatRouterBase (publicPath : String) : Option String :=
  if publicPath == "" || !strStartsWith publicPath "http" then some publicPath
  else
    match urlPathGroup publicPath with
    | some g5 => some (formatPublicPath g5)
    | none => none

/-- `parseAssetProperty(prefix)` (source lines 88-103) applied to one asset
entry. String entries starting with `~` are used verbatim (marker stripped),
other strings get `prefix + '/'` prepended; object entries get the same
treatment applied to their string `path` field. -/
def parseAssetProperty (pfx : String) (asset : JsVal) : JsVal :=
  match asset with
  | .str s =>
    .obj [("path", .str (if strStartsWith s "~" then strDrop s 1 else pfx ++ "/" ++ s))]
  | .obj fs =>
    .obj (setField "path"
      (match lookupField "path" fs with
       | some (.str p) => .str (if strStartsWith p "~" then strDrop p 1 else pfx ++ "/" ++ p)
       | some v => v
       | none => .undefined) fs)
  | _ => .obj [("path", .undefined)]

/-- `getUniqueArray` (source lines 105-107): `Array.from(new Set(xs))`,
i.e. de-duplication keeping first occurrences (`Set` uses SameValueZero,
which coincides with `===` on the primitive entries these lists hold). -/
def getUniqueArray (xs : List JsVal) : List JsVal :=
  (xs.foldl (fun acc x => if acc.any (fun y => sEq y x) then acc else acc ++ [x]) [])

/-- `uniquePathFilter` (source lines 109-111) used through `.filter`:
keeps entry `i` iff the first index whose `path` is `===`-equal to entry
`i`'s `path` is `i` itself. -/
def uniquePathDedup (xs : List JsVal) : List JsVal :=
  (xs.enum.filter (fun iv =>
    (xs.findIdx? (fun y => sEq (jget y "path") (jget iv.2 "path"))) == some iv.1)).map (·.2)

/-- `uniqueRegexFilter` (source lines 113-115): de-duplication on the string
form of each entry, keeping first occurrences. -/
def uniqueRegexDedup (xs : List JsVal) : List JsVal :=
  (xs.enum.filter (fun iv =>
    (xs.findIdx? (fun y => jsTemplate y == jsTemplate iv.2)) == some iv.1)).map (·.2)

/-- The asset-list normalization pipeline as applied to `cfg.css`, `cfg.boot`
and `cfg.ssr.middlewares` (source lines 652-657, 659-664, 980-984):
drop falsy entries, parse each asset, drop entries with falsy `path`,
de-duplicate on `path`. -/
def normalizeAssetList (pfx : String) (xs : List JsVal) : List JsVal :=
  uniquePathDedup
    (((xs.filter truthy).map (parseAssetProperty pfx)).filter
      (fun asset => truthy (jget asset "path")))

/-! ### node:path helpers (imports at line 1 of the source) -/

/-- `path.join(a, b)` for the simple relative segments the source joins. -/
def pathJoin (a b : String) : String := a ++ "/" ++ b

/-- `path.isAbsolute` (posix). -/
def pathIsAbsolute (p : String) : Bool := strStartsWith p "/"

def intercalateSlash : List (List Char) → List Char
  | [] => []
  | [s] => s
  | s :: rest => s ++ '/' :: intercalateSlash rest

/-- `path.basename` for the slash-joined paths the source builds. -/
def pathBasename (p : String) : String :=
  match (splitOnSlash p.data).reverse with
  | [] => ""
  | x :: _ => ⟨x⟩

/-- `path.dirname` for the slash-joined paths the source builds. -/
def pathDirname (p : String) : String :=
  match splitOnSlash p.data with
  | [] => "."
  | [_] => "."
  | parts => ⟨intercalateSlash parts.dropLast⟩

/-- `defaultPortMapping` (source lines 22-29). `none` for a mode name outside
the table (the source would then compute `undefined + 0 = NaN`; unreachable
for the supported modes). -/
def defaultPortMapping (modeName : String) : Option Int :=
  if modeName == "spa" then some 9000
  else if modeName == "ssr" then some 9100
  else if modeName == "pwa" then some 9200
  else if modeName == "electron" then some 9300
  else if modeName == "cordova" then some 9400
  else if modeName == "capacitor" then some 9500
  else none

/-- Modelled from the spec: `localHostList` lives in `./utils/net.js`, which is
not under `src/`; per spec section 4.3 it is the set of loopback / any-interface
addresses that trigger the external-IP rewrite for device-served modes. -/
def localHostList : List String :=
  ["0.0.0.0", "::", "0000:0000:0000:0000:0000:0000:0000:0000", "127.0.0.1", "localhost", "::1"]

end Quasar

namespace Quasar

open JsVal

/-! ### Context, caller options and external collaborators -/

structure ModeFlags where
  spa : Bool
  ssr : Bool
  pwa : Bool
  electron : Bool
  cordova : Bool
  capacitor : Bool
  bex : Bool

/-- `ctx.appPaths`: resolved filesystem roots and resolvers (host-supplied). -/
structure AppPaths where
  srcDir : String
  appDir : String
  resolveSrc : String → String
  resolveApp : String → String
  resolveElectron : String → String
  resolveCordova : String → String

/-- The host project's `package.json` fields the module reads. -/
structure AppPkg where
  pkgName : JsVal
  productName : JsVal
  description : JsVal

/-- The `CompilationContext` (`this.#ctx`): immutable per-process descriptor,
except for `mode.pwa` which line 994 of the source mutates in SSR+PWA mode.
Optional string fields (`targetName`, `archName`, `bundlerName`) use `""` for
the absent (`undefined`, falsy) case. -/
structure Ctx where
  dev : Bool
  prod : Bool
  debug : Bool
  mode : ModeFlags
  modeName : String
  targetName : String
  archName : String
  bundlerName : String
  publish : JsVal
  vueDevtools : Bool
  appPaths : AppPaths
  quasarPkgVersion : String
  appPkg : AppPkg

def modeFlagsToVal (m : ModeFlags) : JsVal :=
  .obj [("spa", .bool m.spa), ("ssr", .bool m.ssr), ("pwa", .bool m.pwa),
        ("electron", .bool m.electron), ("cordova", .bool m.cordova),
        ("capacitor", .bool m.capacitor), ("bex", .bool m.bex)]

/-- The `ctx` object as it appears as a JS value inside the config
(`ctx: this.#ctx` in the skeleton merge, line 467). -/
def ctxToVal (ctx : Ctx) : JsVal :=
  .obj [("dev", .bool ctx.dev), ("prod", .bool ctx.prod), ("debug", .bool ctx.debug),
        ("mode", modeFlagsToVal ctx.mode), ("modeName", .str ctx.modeName),
        ("targetName", if ctx.targetName == "" then .undefined else .str ctx.targetName),
        ("archName", if ctx.archName == "" then .undefined else .str ctx.archName),
        ("bundlerName", if ctx.bundlerName == "" then .undefined else .str ctx.bundlerName),
        ("publish", ctx.publish), ("vueDevtools", .bool ctx.vueDevtools)]

/-- Constructor options (source lines 186-192): requested host/port, the
address-verification toggle, and whether a watch callback was supplied. -/
structure Opts where
  host : JsVal
  port : JsVal
  verifyAddress : Bool
  watchMode : Bool

/-- Results of the out-of-repository collaborators invoked by the module
(spec section 6 "delegated collaborators"). Each field is the behaviour of
one external call during the cycle being modelled. -/
structure Externals where
  animationsModule : JsVal
  runHook : JsVal → Except Unit JsVal
  findClosestOpenPort : JsVal → JsVal → Except String Rat
  getExternalIP : String
  appFilesValidationsOk : Bool
  resolveExtension : String → Option String
  isMinimalTerminal : Bool
  fileEnv : JsVal
  usedEnvFiles : List String
  envFromCache : Bool
  sslCertificate : JsVal
  readFile : String → Except Unit JsVal
  electronGetDefaultName : String
  electronArgvOk : Bool
  platformIsLinux : Bool
  iconPngExists : Bool
  storeProviderPathKey : String
  storeProviderName : String
  transformAssetUrls : JsVal
  cssVariables : JsVal
  versions : JsVal

/-- Module-level mutable state (source line 117):
`let cachedExternalHost, addressRunning = false`. -/
structure AddrGlobal where
  cachedExternalHost : Option String
  addressRunning : Bool

/-- The mutable per-session state of a `QuasarConfigFile` instance plus the
module-level address globals. `probeCount` instruments the number of
`findClosestOpenPort` invocations performed through `onAddress` (for stating
the no-re-probe property); `tempExists` tracks whether the temporary compiled
artifact is currently on disk. -/
structure SessState where
  ctx : Ctx
  address : Option ((JsVal × JsVal) × (JsVal × JsVal))
  addrGlobal : AddrGlobal
  vueDevtoolsCache : Option JsVal
  electronInspectPort : Option JsVal
  probeCount : Nat
  tempExists : Bool

/-- How a cycle stops early: `fatalExit` models `fatal()` / `process.exit`
(the process terminates); `warned` models `warn()` followed by returning
`undefined` (no config produced, process stays alive). -/
inductive EarlyExit where
  | fatalExit (msg : String)
  | warned (msg : String)

/-- Early-exit monad for the derivation: an error carries the session state
at the moment of the exit (mutations made before the failing step persist). -/
abbrev DerivM (α : Type) := Except (EarlyExit × SessState) α

/-- The `failOnError === true ? fatal(...) : (warn(...); return)` idiom that
every failure site of `#computeConfig` uses. -/
def bail {α : Type} (failOnError : Bool) (st : SessState) (fatalMsg warnMsg : String) : DerivM α :=
  .error ((if failOnError then .fatalExit fatalMsg else .warned warnMsg), st)

/-! ### `onAddress` (source lines 119-169) -/

structure OnAddressOut where
  g : AddrGlobal
  probes : Nat
  result : Option (JsVal × JsVal)

/-- `onAddress({ host, port }, mode)`: external-IP rewrite for device-served
modes, then port search. On a probe failure it terminates the process when no
address was ever successfully negotiated this session (`addressRunning ===
false`, line 160-162) and returns `null` otherwise. -/
def onAddress (ext : Externals) (g : AddrGlobal) (probes : Nat)
    (host port : JsVal) (mode : String) : Except EarlyExit OnAddressOut :=
  let (g, host) :=
    if (mode == "cordova" || mode == "capacitor")
        && (!truthy host
            || (match host with
                | .str s => localHostList.contains (strLower s)
                | _ => false)) then
      match g.cachedExternalHost with
      | some h => (g, JsVal.str h)
      | none => ({ g with cachedExternalHost := some ext.getExternalIP }, JsVal.str ext.getExternalIP)
    else (g, host)
  match ext.findClosestOpenPort port host with
  | .ok openPort =>
    -- lines 136-142: when the requested port is taken the source warns and
    -- adopts the closest open one
    .ok { g := { g with addressRunning := true }, probes := probes + 1,
          result := some (host, .num openPort) }
  | .error _ =>
    -- lines 144-164
    if g.addressRunning == false then
      .error (.fatalExit "process.exit(1): network error before any successful bind")
    else
      .ok { g := g, probes := probes + 1, result := none }

/-! ### The default skeleton and initial metaConf (source lines 466-547) -/

def defaultSkeleton (ctx : Ctx) : JsVal := .obj [
  ("ctx", ctxToVal ctx),
  ("boot", .arr []),
  ("css", .arr []),
  ("extras", .arr []),
  ("animations", .arr []),
  ("framework", .obj [("components", .arr []), ("directives", .arr []),
                      ("plugins", .arr []), ("config", .obj [])]),
  ("vendor", .obj [("add", .arr []), ("remove", .arr [])]),
  ("eslint", .obj [("include", .arr []), ("exclude", .arr []),
                   ("rawWebpackEslintPluginOptions", .obj []), ("rawEsbuildEslintOptions", .obj [])]),
  ("sourceFiles", .obj []),
  ("bin", .obj []),
  ("htmlVariables", .obj []),
  ("devServer", .obj [("server", .obj [])]),
  ("build", .obj [
     ("esbuildTarget", .obj []),
     ("vueLoaderOptions", .obj [("transformAssetUrls", .obj [])]),
     ("sassLoaderOptions", .obj []),
     ("scssLoaderOptions", .obj []),
     ("stylusLoaderOptions", .obj []),
     ("lessLoaderOptions", .obj []),
     ("tsLoaderOptions", .obj []),
     ("env", .obj []),
     ("rawDefine", .obj []),
     ("envFiles", .arr []),
     ("webpackTranspileDependencies", .arr []),
     ("uglifyOptions", .obj [("compress", .obj []), ("mangle", .obj [])]),
     ("htmlMinifyOptions", .obj [])]),
  ("ssr", .obj [("middlewares", .arr [])]),
  ("pwa", .obj []),
  ("electron", .obj [("preloadScripts", .arr []), ("unPackagedInstallParams", .arr []),
                     ("packager", .obj []), ("builder", .obj [])]),
  ("cordova", .obj []),
  ("capacitor", .obj [("capacitorCliPreparationParams", .arr [])]),
  ("bex", .obj [("contentScripts", .arr [])])]

def initialMetaConf (ctx : Ctx) (ext : Externals) : JsVal := .obj [
  ("debugging", .bool (ctx.dev == true || ctx.debug == true)),
  ("needsAppMountHook", .bool false),
  ("vueDevtools", .bool false),
  ("versions", ext.versions),
  ("css", ext.cssVariables)]

end Quasar

namespace Quasar

open JsVal

/-! ### Derivation passes of `#computeConfig` (source lines 549-1296), in
source order. Pure passes are plain functions; passes that can fail early or
touch session state run in `DerivM`. -/

/-- Lines 577-585: SSR base defaults. -/
def passSsrBase (ctx : Ctx) (cfg : JsVal) : JsVal :=
  if ctx.mode.ssr then
    jset cfg "ssr" (jsMerge (.obj [
      ("pwa", .bool false),
      ("pwaOfflineHtmlFilename", .str "offline.html"),
      ("manualStoreHydration", .bool false),
      ("manualPostHydrationTrigger", .bool false),
      ("prodPort", .num 3000)]) (jget cfg "ssr"))
  else cfg

/-- Lines 641-648: apply the negotiated address to `cfg.devServer` and record
the `{ from, to }` mapping in `this.#address`. -/
def applyAddress (st : SessState) (cfg : JsVal) (reqHost reqPort : JsVal)
    (toHost toPort : JsVal) : SessState × JsVal :=
  let cfg := jset cfg "devServer"
    (jsMerge3 (.obj [("open", .bool true)]) (jget cfg "devServer")
      (.obj [("host", toHost), ("port", toPort)]))
  let bound := (jget2 cfg "devServer" "host", jget2 cfg "devServer" "port")
  let st := { st with address := some ((reqHost, reqPort), bound) }
  (st, cfg)

/-- Lines 620-649: negotiate (or pass through) the requested address on a
cache miss. -/
def devServerNegotiate (ext : Externals) (opts : Opts) (failOnError : Bool)
    (st : SessState) (cfg : JsVal) (reqHost reqPort : JsVal) : DerivM (SessState × JsVal) :=
  if opts.verifyAddress == true then
    match onAddress ext st.addrGlobal st.probeCount reqHost reqPort st.ctx.modeName with
    | .error e => .error (e, st)
    | .ok out =>
      let st := { st with addrGlobal := out.g, probeCount := out.probes }
      match out.result with
      | none =>
        -- lines 630-638
        bail failOnError st
          "Network error encountered while following the quasar.config file host/port config."
          "Network error encountered while following the quasar.config file host/port config. Reconfigure and save the file again."
      | some (h, p) => .ok (applyAddress st cfg reqHost reqPort h p)
  else
    .ok (applyAddress st cfg reqHost reqPort reqHost reqPort)

/-- Lines 588-650: dev-server host/port defaulting, the cached
`{requested → bound}` short-circuit, and address negotiation. -/
def passDevServerAddress (ext : Externals) (opts : Opts) (failOnError : Bool)
    (st : SessState) (cfg : JsVal) : DerivM (SessState × JsVal) :=
  let ctx := st.ctx
  if !(ctx.dev && ctx.mode.bex != true) then .ok (st, cfg) else
  -- lines 589-594
  let cfg :=
    if truthy opts.host then jset2 cfg "devServer" "host" opts.host
    else if !truthy (jget2 cfg "devServer" "host") then jset2 cfg "devServer" "host" (.str "0.0.0.0")
    else cfg
  -- lines 596-610 (the `tip` calls are log-only)
  let cfg :=
    if truthy opts.port then jset2 cfg "devServer" "port" opts.port
    else if !truthy (jget2 cfg "devServer" "port") then
      jset2 cfg "devServer" "port"
        (match defaultPortMapping ctx.modeName with
         | some base =>
           .num (ratInt (base + (if ctx.mode.ssr == true && sEq (jget2 cfg "ssr" "pwa") (.bool true) then 50 else 0)))
         | none => .undefined)
    else cfg
  -- lines 612-619
  let reqHost := jget2 cfg "devServer" "host"
  let reqPort := jget2 cfg "devServer" "port"
  match st.address with
  | some (f, t) =>
    if sEq f.1 reqHost && sEq f.2 reqPort then
      .ok (st, jset2 (jset2 cfg "devServer" "host" t.1) "devServer" "port" t.2)
    else
      devServerNegotiate ext opts failOnError st cfg reqHost reqPort
  | none => devServerNegotiate ext opts failOnError st cfg reqHost reqPort

/-- Lines 652-672: asset-list normalization and de-duplication. Non-array
values with a truthy `.length` would throw in the source; they are outside
the modelled domain and left untouched. -/
def passAssetLists (cfg : JsVal) : JsVal :=
  let step := fun (cfg : JsVal) (key pfx : String) =>
    match jget cfg key with
    | .arr xs => if xs.length > 0 then jset cfg key (.arr (normalizeAssetList pfx xs)) else cfg
    | _ => cfg
  let cfg := step cfg "css" "src/css"
  let cfg := step cfg "boot" "boot"
  let cfg := match jget cfg "extras" with
    | .arr xs => if xs.length > 0 then jset cfg "extras" (.arr (getUniqueArray xs)) else cfg
    | _ => cfg
  match jget cfg "animations" with
  | .arr xs => if xs.length > 0 then jset cfg "animations" (.arr (getUniqueArray xs)) else cfg
  | _ => cfg

/-- `cfg.framework.components.push(spinner)` (lines 684, 691). -/
def pushComponent (cfg : JsVal) (v : JsVal) : JsVal :=
  match jget2 cfg "framework" "components" with
  | .arr xs => jset2 cfg "framework" "components" (.arr (xs ++ [v]))
  | _ => cfg

/-- Lines 674-702: component-case normalization, spinner component
registration, framework list de-duplication, plugin feature flags. -/
def passFramework (cfg : JsVal) : JsVal :=
  -- lines 674-676
  let aicc := jget2 cfg "framework" "autoImportComponentCase"
  let cfg := if !(["kebab", "pascal", "combined"].any (fun s => sEq aicc (.str s)))
    then jset2 cfg "framework" "autoImportComponentCase" (.str "kebab") else cfg
  -- lines 679-693
  let config := jget2 cfg "framework" "config"
  let cfg := if truthy (jget config "loading") then
      let spinner := jget2 config "loading" "spinner"
      if quasarComponentTest (jsTemplate spinner) then pushComponent cfg spinner else cfg
    else cfg
  let cfg := if truthy (jget config "notify") then
      let spinner := jget2 config "notify" "spinner"
      if quasarComponentTest (jsTemplate spinner) then pushComponent cfg spinner else cfg
    else cfg
  -- lines 695-697
  let uniq := fun (cfg : JsVal) (k : String) =>
    match jget2 cfg "framework" k with
    | .arr xs => jset2 cfg "framework" k (.arr (getUniqueArray xs))
    | _ => cfg
  let cfg := uniq cfg "components"
  let cfg := uniq cfg "directives"
  let cfg := uniq cfg "plugins"
  -- lines 699-702
  let plugins := elemsOf (jget2 cfg "framework" "plugins")
  jset cfg "metaConf" (jsAssign (jget cfg "metaConf") (.obj [
    ("hasLoadingBarPlugin", .bool (plugins.any (fun p => sEq p (.str "LoadingBar")))),
    ("hasMetaPlugin", .bool (plugins.any (fun p => sEq p (.str "Meta"))))]))

/-- Lines 704-714: eslint defaults. -/
def passEslint (cfg : JsVal) : JsVal :=
  jset cfg "eslint" (jsMerge (.obj [
    ("warnings", .bool false), ("errors", .bool false), ("fix", .bool false),
    ("formatter", .str "stylish"), ("cache", .bool true),
    ("include", .arr []), ("exclude", .arr []),
    ("rawWebpackEslintPluginOptions", .obj []), ("rawEsbuildEslintOptions", .obj [])])
    (jget cfg "eslint"))

/-- `JSON.stringify` of the version string (line 788). -/
def jsonStringifyStr (s : String) : String := "\"" ++ s ++ "\""

/-- Lines 716-815: the build defaults merged under the user's `cfg.build`.
The conditional entries read `cfg` as it stands before the merge, exactly as
the source expressions do. -/
def buildDefaults (ctx : Ctx) (ext : Externals) (cfg : JsVal) : JsVal := .obj [
  ("vueLoaderOptions", .obj [("transformAssetUrls", ext.transformAssetUrls)]),
  ("vueOptionsAPI", .bool true),
  ("vueRouterMode", .str "hash"),
  ("minify", .bool (!(sEq (jget2 cfg "metaConf" "debugging") (.bool true))
      && (ctx.mode.bex != true || sEq (jget2 cfg "bex" "minify") (.bool true)))),
  ("sourcemap", .bool (sEq (jget2 cfg "metaConf" "debugging") (.bool true))),
  ("extractCSS", .bool (ctx.prod || ctx.mode.ssr)),
  ("distDir", .str (pathJoin "dist" ctx.modeName)),
  ("webpackTranspile", .bool true),
  ("htmlFilename", .str "index.html"),
  ("webpackShowProgress", .bool true),
  ("webpackDevtool", .str (if ctx.dev then "eval-cheap-module-source-map" else "source-map")),
  ("uglifyOptions", .obj [
     ("compress", .obj [
        ("arrows", .bool false), ("collapse_vars", .bool false), ("comparisons", .bool false),
        ("computed_props", .bool false), ("hoist_funs", .bool false), ("hoist_props", .bool false),
        ("hoist_vars", .bool false), ("inline", .bool false), ("loops", .bool false),
        ("negate_iife", .bool false), ("properties", .bool false), ("reduce_funcs", .bool false),
        ("reduce_vars", .bool false), ("switches", .bool false), ("toplevel", .bool false),
        ("typeofs", .bool false),
        ("booleans", .bool true), ("if_return", .bool true), ("sequences", .bool true),
        ("unused", .bool true),
        ("conditionals", .bool true), ("dead_code", .bool true), ("evaluate", .bool true)]),
     ("mangle", .obj [("safari10", .bool true)])]),
  ("htmlMinifyOptions", .obj [
     ("removeComments", .bool true), ("collapseWhitespace", .bool true),
     ("removeAttributeQuotes", .bool true), ("collapseBooleanAttributes", .bool true),
     ("removeScriptTypeAttributes", .bool true)]),
  ("rawDefine", .obj [
     ("__QUASAR_VERSION__", .str (jsonStringifyStr ctx.quasarPkgVersion)),
     ("__QUASAR_SSR__", .bool (ctx.mode.ssr == true)),
     ("__QUASAR_SSR_SERVER__", .bool false),
     ("__QUASAR_SSR_CLIENT__", .bool false),
     ("__QUASAR_SSR_PWA__", .bool false),
     ("__VUE_OPTIONS_API__", .bool (!(sEq (jget2 cfg "build" "vueOptionsAPI") (.bool false)))),
     ("__VUE_PROD_DEVTOOLS__", jget2 cfg "metaConf" "debugging"),
     ("__VUE_I18N_FULL_INSTALL__", .bool true),
     ("__VUE_I18N_LEGACY_API__", .bool true),
     ("__VUE_I18N_PROD_DEVTOOLS__", jget2 cfg "metaConf" "debugging"),
     ("__INTLIFY_PROD_DEVTOOLS__", jget2 cfg "metaConf" "debugging")]),
  ("alias", .obj [
     ("src", .str ctx.appPaths.srcDir),
     ("app", .str ctx.appPaths.appDir),
     ("components", .str (ctx.appPaths.resolveSrc "components")),
     ("layouts", .str (ctx.appPaths.resolveSrc "layouts")),
     ("pages", .str (ctx.appPaths.resolveSrc "pages")),
     ("assets", .str (ctx.appPaths.resolveSrc "assets")),
     ("boot", .str (ctx.appPaths.resolveSrc "boot")),
     ("stores", .str (ctx.appPaths.resolveSrc "stores"))])]

/-- Lines 817-825: vendor add/remove RegExp construction. -/
def passVendor (cfg : JsVal) : JsVal :=
  if !(sEq (jget2 cfg "vendor" "disable") (.bool true)) then
    let step := fun (cfg : JsVal) (k : String) =>
      let xs := elemsOf (jget2 cfg "vendor" k)
      jset2 cfg "vendor" k
        (if xs.length > 0
         then .regex (joinSep "|" ((xs.filter truthy).map jsTemplate))
         else .undefined)
    step (step cfg "add") "remove"
  else cfg

/-- Lines 827-833: the webpack-transpile banner. The guard compares
`cfg.build.webpackTranspileDependencies === true`, so entering the branch
means the subsequent `.filter` call is performed on the boolean `true`,
a `TypeError` that crashes the process; with any other value the `else`
branch sets the banner to `dim('no')` (colouring not modelled). -/
def passTranspileBanner (st : SessState) (cfg : JsVal) : DerivM JsVal :=
  if sEq (jget2 cfg "build" "webpackTranspileDependencies") (.bool true) then
    .error (.fatalExit "TypeError: cfg.build.webpackTranspileDependencies.filter is not a function", st)
  else
    .ok (jset2 cfg "metaConf" "webpackTranspileBanner" (.str "no"))

def jget3 (v : JsVal) (k1 k2 k3 : String) : JsVal := jget (jget2 v k1 k2) k3

def jset3 (v : JsVal) (k1 k2 k3 : String) (w : JsVal) : JsVal :=
  jset v k1 (jset2 (jget v k1) k2 k3 w)

/-- Lines 835-841: esbuild target defaults. -/
def passEsbuildTarget (cfg : JsVal) : JsVal :=
  let cfg := if !truthy (jget3 cfg "build" "esbuildTarget" "browser")
    then jset3 cfg "build" "esbuildTarget" "browser"
      (.arr [.str "es2019", .str "edge88", .str "firefox78", .str "chrome87", .str "safari13.1"])
    else cfg
  if !truthy (jget3 cfg "build" "esbuildTarget" "node")
  then jset3 cfg "build" "esbuildTarget" "node" (.str "node16")
  else cfg

/-- Lines 843-852: router mode / html filename by target family. -/
def passRouterModeByMode (ctx : Ctx) (cfg : JsVal) : JsVal :=
  if ctx.mode.ssr then jset2 cfg "build" "vueRouterMode" (.str "history")
  else if ctx.mode.cordova || ctx.mode.capacitor || ctx.mode.electron || ctx.mode.bex then
    jset cfg "build" (jsAssign (jget cfg "build") (.obj [
      ("htmlFilename", .str "index.html"), ("vueRouterMode", .str "hash"), ("gzip", .bool false)]))
  else cfg

/-- Lines 854-866: distinct dist folder for BEX dev builds. -/
def passBexDistDir (ctx : Ctx) (cfg : JsVal) : JsVal :=
  if ctx.dev == true && ctx.mode.bex then
    match jget2 cfg "build" "distDir" with
    | .str dd =>
      let nm := pathBasename dd
      jset2 cfg "build" "distDir" (.str (pathJoin (pathDirname dd)
        (if nm == "bex" then "bex--dev" else "bex-dev--" ++ nm)))
    | _ => cfg
  else cfg

/-- Lines 868-870: make `distDir` absolute. -/
def passDistDirAbs (ctx : Ctx) (cfg : JsVal) : JsVal :=
  match jget2 cfg "build" "distDir" with
  | .str d =>
    if !pathIsAbsolute d then jset2 cfg "build" "distDir" (.str (ctx.appPaths.resolveApp d)) else cfg
  | _ => cfg

/-- Lines 872-880: public path and router base. Non-string truthy
`publicPath` values would make `formatPublicPath` throw in the source;
modelled as the crash they are. -/
def passPublicPath (ctx : Ctx) (st : SessState) (cfg : JsVal) : DerivM JsVal := do
  let pp := jget2 cfg "build" "publicPath"
  let newPp : JsVal ←
    if truthy pp && ["spa", "pwa", "ssr"].contains ctx.modeName then
      match pp with
      | .str s => pure (JsVal.str (formatPublicPath s))
      | _ => .error (.fatalExit "TypeError: publicPath.endsWith is not a function", st)
    else
      pure (if ["capacitor", "cordova", "electron", "bex"].contains ctx.modeName
            then JsVal.str "" else JsVal.str "/")
  let cfg := jset2 cfg "build" "publicPath" newPp
  if sEq (jget2 cfg "build" "vueRouterBase") .undefined then
    match newPp with
    | .str s =>
      match formatRouterBase s with
      | some rb => pure (jset2 cfg "build" "vueRouterBase" (.str rb))
      | none => .error (.fatalExit "TypeError: cannot read properties of null", st)
    | _ => pure cfg
  else pure cfg

/-- Lines 884-903: sourceFiles defaults and the delegated file validation. -/
def passSourceFiles (ext : Externals) (failOnError : Bool) (st : SessState)
    (cfg : JsVal) : DerivM JsVal := do
  let cfg := jset cfg "sourceFiles" (jsMerge (.obj [
    ("rootComponent", .str "src/App.vue"),
    ("router", .str "src/router/index"),
    ("store", .str ("src/" ++ ext.storeProviderPathKey ++ "/index")),
    ("indexHtmlTemplate", .str "index.html"),
    ("pwaRegisterServiceWorker", .str "src-pwa/register-service-worker"),
    ("pwaServiceWorker", .str "src-pwa/custom-service-worker"),
    ("pwaManifestFile", .str "src-pwa/manifest.json"),
    ("electronMain", .str "src-electron/electron-main"),
    ("bexManifestFile", .str "src-bex/manifest.json")]) (jget cfg "sourceFiles"))
  if ext.appFilesValidationsOk == false then
    bail failOnError st "Files validation not passed successfully"
      "Files validation not passed successfully. Please fix the issues."
  else
    pure cfg

/-- Lines 905-913: store detection and the `preFetch` default. -/
def passStoreMeta (ctx : Ctx) (ext : Externals) (cfg : JsVal) : JsVal :=
  let storePath := ctx.appPaths.resolveApp (jsTemplate (jget2 cfg "sourceFiles" "store"))
  let cfg := jset cfg "metaConf" (jsAssign (jget cfg "metaConf") (.obj [
    ("hasStore", .bool (ext.resolveExtension storePath).isSome),
    ("storePackage", .str ext.storeProviderName)]))
  jset cfg "preFetch"
    (if truthy (jget cfg "preFetch") then jget cfg "preFetch" else .bool false)

/-- Lines 915-917: capacitor CLI preparation params. The source uses the
bitwise `&` between the two boolean conditions, which coincides with `&&`
here (both operands are evaluated, neither has effects). -/
def passCapacitorParams (ctx : Ctx) (cfg : JsVal) : JsVal :=
  if ctx.mode.capacitor
      && (match jget2 cfg "capacitor" "capacitorCliPreparationParams" with
          | .arr xs => xs.length == 0
          | _ => false) then
    jset2 cfg "capacitor" "capacitorCliPreparationParams"
      (.arr [.str "sync", if ctx.targetName == "" then .undefined else .str ctx.targetName])
  else cfg

/-- Lines 923-942: webpack-dev-server 4.5 `server`/`https` normalization. -/
def passServerTransform (cfg : JsVal) : JsVal :=
  match jget2 cfg "devServer" "server" with
  | .str t => jset2 cfg "devServer" "server" (.obj [("type", .str t)])
  | _ =>
    if !(sEq (jget2 cfg "devServer" "https") .undefined) then
      let https := jget2 cfg "devServer" "https"
      let cfg := jset cfg "devServer" (jdel (jget cfg "devServer") "https")
      if !(sEq https (.bool false)) then
        let cfg := jset2 cfg "devServer" "server" (.obj [("type", .str "https")])
        if isObjectLike https then jset3 cfg "devServer" "server" "options" https else cfg
      else cfg
    else cfg

/-- Lines 944-973: HTTPS certificate provisioning / file reading. A failed
read warns and deletes the property (no early exit). -/
def passSsl (ctx : Ctx) (ext : Externals) (cfg : JsVal) : JsVal :=
  if ctx.dev && sEq (jget3 cfg "devServer" "server" "type") (.str "https") then
    let options := jget3 cfg "devServer" "server" "options"
    if sEq options .undefined then
      jset3 cfg "devServer" "server" "options"
        (.obj [("key", ext.sslCertificate), ("cert", ext.sslCertificate)])
    else
      let step := fun (opts' : JsVal) (p : String) =>
        match jget opts' p with
        | .str path =>
          match ext.readFile path with
          | .ok contents => jset opts' p contents
          | .error _ => jdel opts' p
        | _ => opts'
      jset3 cfg "devServer" "server" "options"
        (step (step (step (step options "ca") "pfx") "key") "cert")
  else cfg

/-- Lines 975-995: SSR pass; mutates `ctx.mode.pwa` (and `cfg.ctx.mode.pwa`)
to `cfg.ssr.pwa === true`. -/
def passSsr (ctx : Ctx) (cfg : JsVal) : Ctx × JsVal :=
  if ctx.mode.ssr then
    let cfg := if !(sEq (jget2 cfg "ssr" "manualPostHydrationTrigger") (.bool true))
      then jset2 cfg "metaConf" "needsAppMountHook" (.bool true) else cfg
    let cfg := match jget2 cfg "ssr" "middlewares" with
      | .arr xs =>
        if xs.length > 0
        then jset2 cfg "ssr" "middlewares" (.arr (normalizeAssetList "app/src-ssr/middlewares" xs))
        else cfg
      | _ => cfg
    let pwaOn := sEq (jget2 cfg "ssr" "pwa") (.bool true)
    -- lines 987-992: `addMode` installs the pwa mode on disk (external side
    -- effect, not part of the config value)
    let cfg := if pwaOn then jset3 cfg "build" "rawDefine" "__QUASAR_SSR_PWA__" (.bool true) else cfg
    let ctx := { ctx with mode := { ctx.mode with pwa := pwaOn } }
    let cfg := jset cfg "ctx"
      (jset (jget cfg "ctx") "mode" (jset (jget2 cfg "ctx" "mode") "pwa" (.bool pwaOn)))
    (ctx, cfg)
  else (ctx, cfg)

/-- Lines 997-1096: the dev-mode devServer merge, vue-devtools port lookup,
and the `open` → `metaConf.openBrowser` hand-off with unconditional
`delete cfg.devServer.open`. -/
def passDevServerMerge (ext : Externals) (st : SessState) (cfg : JsVal) :
    DerivM (SessState × JsVal) := do
  let ctx := st.ctx
  if ctx.dev != true then .ok (st, cfg) else do
  -- lines 1001-1004
  let cfg := if ctx.mode.bex == true then
      let dm := if truthy (jget2 cfg "devServer" "devMiddleware")
        then jget2 cfg "devServer" "devMiddleware" else JsVal.obj []
      jset2 cfg "devServer" "devMiddleware" (jset dm "writeToDisk" (.bool true))
    else cfg
  -- lines 1006-1067 (`setupMiddlewares` is the closure built at 1043-1066)
  let base : JsVal := .obj [
    ("hot", .bool true), ("allowedHosts", .str "all"), ("compress", .bool true),
    ("open", .bool true),
    ("client", .obj [("overlay", .obj [("warnings", .bool false)])]),
    ("server", .obj [("type", .str "http")]),
    ("devMiddleware", .obj [("publicPath", jget2 cfg "build" "publicPath"), ("stats", .bool false)])]
  let branch : JsVal :=
    if ctx.mode.ssr == true then
      .obj [("devMiddleware", .obj [("index", .bool false)]),
            ("static", .obj [("serveIndex", .bool false)])]
    else
      .obj [("historyApiFallback",
             if sEq (jget2 cfg "build" "vueRouterMode") (.str "history")
             then .obj [("index", .str
               ((if truthy (jget2 cfg "build" "publicPath")
                 then jsTemplate (jget2 cfg "build" "publicPath") else "/")
                ++ jsTemplate (jget2 cfg "build" "htmlFilename")))]
             else .bool false),
            ("devMiddleware", .obj [("index", jget2 cfg "build" "htmlFilename")])]
  let cfg := jset cfg "devServer"
    (jsMerge4 base branch (jget cfg "devServer") (.obj [("setupMiddlewares", .fn "setupMiddlewares")]))
  -- lines 1069-1082
  let stepDevtools : DerivM (SessState × JsVal) :=
    if ctx.vueDevtools == true || sEq (jget2 cfg "devServer" "vueDevtools") (.bool true) then do
      let st ← match st.vueDevtoolsCache with
        | some _ => pure st
        | none =>
          let hostStr := jsTemplate (jget2 cfg "devServer" "host")
          let host := if localHostList.contains (strLower hostStr) then "localhost" else hostStr
          match ext.findClosestOpenPort (.num 11111) (.str "0.0.0.0") with
          | .ok p =>
            let entry : JsVal := .obj [("host", .str host), ("port", .num p)]
            pure { st with vueDevtoolsCache := some entry }
          | .error _ => .error (.fatalExit "unhandled exception from findClosestOpenPort", st)
      pure (st, jset2 cfg "metaConf" "vueDevtools" (st.vueDevtoolsCache.getD .undefined))
    else pure (st, cfg)
  let (st, cfg) ← stepDevtools
  -- lines 1084-1095
  let cfg :=
    if ctx.mode.cordova || ctx.mode.capacitor || ctx.mode.electron then
      if ctx.mode.electron then jset3 cfg "devServer" "server" "type" (.str "http") else cfg
    else if truthy (jget2 cfg "devServer" "open") then
      jset2 cfg "metaConf" "openBrowser"
        (if ext.isMinimalTerminal == false then jget2 cfg "devServer" "open" else .bool false)
    else cfg
  let cfg := jset cfg "devServer" (jdel (jget cfg "devServer") "open")
  .ok (st, cfg)

/-- Lines 1098-1115: gzip option normalization. -/
def passGzip (cfg : JsVal) : JsVal :=
  if truthy (jget2 cfg "build" "gzip") then
    let gzipVal := jget2 cfg "build" "gzip"
    let gzip := if sEq gzipVal (.bool true) then JsVal.obj [] else gzipVal
    let (extArr, gzip) :=
      if truthy (jget gzip "extensions")
      then (jget gzip "extensions", jdel gzip "extensions")
      else (JsVal.arr [.str "js", .str "css"], gzip)
    let extList := (elemsOf extArr).map jsTemplate
    jset2 cfg "build" "gzip" (jsMerge (.obj [
      ("algorithm", .str "gzip"),
      ("test", .regex ("\\.(" ++ joinSep "|" extList ++ ")$")),
      ("threshold", .num 10240),
      ("minRatio", .num ratFourFifths)]) gzip)
  else cfg

/-- Lines 1117-1147: PWA defaults, workbox strategy validation, service
worker path resolution; BEX manifest path in the `else if` arm. -/
def passPwa (ctx : Ctx) (ext : Externals) (failOnError : Bool) (st : SessState)
    (cfg : JsVal) : DerivM JsVal := do
  if ctx.mode.pwa then
    let cfg := jset cfg "pwa" (jsMerge (.obj [
      ("workboxMode", .str "GenerateSW"), ("injectPwaMetaTags", .bool true),
      ("swFilename", .str "sw.js"), ("manifestFilename", .str "manifest.json"),
      ("useCredentialsForManifestTag", .bool false)]) (jget cfg "pwa"))
    let wm := jget2 cfg "pwa" "workboxMode"
    if !(["GenerateSW", "InjectManifest"].any (fun s => sEq wm (.str s))) then
      bail failOnError st
        ("Workbox strategy \"" ++ jsTemplate wm ++ "\" is invalid.")
        ("Workbox strategy \"" ++ jsTemplate wm ++ "\" is invalid. Please fix it.")
    else do
      let cfg := jset3 cfg "build" "env" "SERVICE_WORKER_FILE"
        (.str (jsTemplate (jget2 cfg "build" "publicPath") ++ jsTemplate (jget2 cfg "pwa" "swFilename")))
      let cfg := jset2 cfg "metaConf" "pwaManifestFile"
        (.str (ctx.appPaths.resolveApp (jsTemplate (jget2 cfg "sourceFiles" "pwaManifestFile"))))
      let swPath := ctx.appPaths.resolveApp (jsTemplate (jget2 cfg "sourceFiles" "pwaServiceWorker"))
      pure (jset2 cfg "sourceFiles" "pwaServiceWorker"
        (match ext.resolveExtension swPath with
         | some r => .str r
         | none => jget2 cfg "sourceFiles" "pwaServiceWorker"))
  else if ctx.mode.bex then
    pure (jset2 cfg "metaConf" "bexManifestFile"
      (.str (ctx.appPaths.resolveApp (jsTemplate (jget2 cfg "sourceFiles" "bexManifestFile")))))
  else pure cfg

/-- Lines 1149-1160: APP_URL / getUrl metadata. -/
def passAppUrl (ctx : Ctx) (cfg : JsVal) : JsVal :=
  if ctx.dev then
    let scheme := if sEq (jget3 cfg "devServer" "server" "type") (.str "https") then "https" else "http"
    let hostname := if sEq (jget2 cfg "devServer" "host") (.str "0.0.0.0")
      then "localhost" else jsTemplate (jget2 cfg "devServer" "host")
    let url := scheme ++ "://" ++ hostname ++ ":" ++ jsTemplate (jget2 cfg "devServer" "port")
      ++ jsTemplate (jget2 cfg "build" "publicPath")
    let cfg := jset2 cfg "metaConf" "APP_URL" (.str url)
    jset2 cfg "metaConf" "getUrl" (.fn "getUrl")
  else if ctx.mode.cordova || ctx.mode.capacitor || ctx.mode.bex then
    jset2 cfg "metaConf" "APP_URL" (.str "index.html")
  else cfg

/-- Lines 1162-1176: assemble `cfg.build.env`. -/
def passEnvAssign (ctx : Ctx) (cfg : JsVal) : JsVal :=
  let cfg := jset2 cfg "build" "env" (jsAssign (jget2 cfg "build" "env") (.obj [
    ("NODE_ENV", .str (if ctx.prod then "production" else "development")),
    ("CLIENT", .bool true),
    ("SERVER", .bool false),
    ("DEV", .bool (ctx.dev == true)),
    ("PROD", .bool (ctx.prod == true)),
    ("DEBUGGING", .bool (sEq (jget2 cfg "metaConf" "debugging") (.bool true))),
    ("MODE", .str ctx.modeName),
    ("VUE_ROUTER_MODE", jget2 cfg "build" "vueRouterMode"),
    ("VUE_ROUTER_BASE", jget2 cfg "build" "vueRouterBase")]))
  if truthy (jget2 cfg "metaConf" "APP_URL")
  then jset3 cfg "build" "env" "APP_URL" (jget2 cfg "metaConf" "APP_URL")
  else cfg

/-- Lines 1179-1188: env-file variables from the delegated reader. -/
def passFileEnv (ext : Externals) (cfg : JsVal) : JsVal :=
  jset2 cfg "metaConf" "fileEnv" ext.fileEnv

/-- Lines 1190-1285: the electron branch. Dev: preload scripts default and
cached inspect-port lookup (reads `userCfg`, not the merged config, line
1191). Prod: packager/builder default merges, bundler selection,
`ensureElectronArgv` (which terminates the process on an unsupported
combination), target/arch wiring. -/
def passElectron (ext : Externals) (st : SessState) (userCfg cfg : JsVal) :
    DerivM (SessState × JsVal) := do
  let ctx := st.ctx
  if ctx.mode.electron != true then .ok (st, cfg) else do
  let cfg := if !truthy (jget2 userCfg "electron" "preloadScripts")
    then jset2 cfg "electron" "preloadScripts" (.arr [.str "electron-preload"]) else cfg
  if ctx.dev then do
    -- lines 1195-1203
    let (st, port) ← match st.electronInspectPort with
      | some p => pure (st, p)
      | none =>
        let requested := if truthy (jget2 userCfg "electron" "inspectPort")
          then jget2 userCfg "electron" "inspectPort" else JsVal.num 5858
        match ext.findClosestOpenPort requested (.str "127.0.0.1") with
        | .ok p => pure ({ st with electronInspectPort := some (.num p) }, JsVal.num p)
        | .error _ => .error (.fatalExit "unhandled exception from findClosestOpenPort", st)
    .ok (st, jset2 cfg "electron" "inspectPort" port)
  else do
    -- lines 1205-1238
    let icon := ctx.appPaths.resolveElectron "icons/icon.png"
    let builderIcon := if ext.platformIsLinux
      then (if ext.iconPngExists then icon else ctx.appPaths.resolveElectron "icons/linux-512x512.png")
      else ctx.appPaths.resolveElectron "icons/icon"
    let productName := if truthy ctx.appPkg.productName then ctx.appPkg.productName
      else if truthy ctx.appPkg.pkgName then ctx.appPkg.pkgName else JsVal.str "Quasar App"
    let dd := jsTemplate (jget2 cfg "build" "distDir")
    let cfg := jset cfg "electron" (jsMerge3
      (.obj [("packager", .obj [("asar", .bool true),
                                ("icon", .str (ctx.appPaths.resolveElectron "icons/icon")),
                                ("overwrite", .bool true)]),
             ("builder", .obj [("appId", .str "quasar-app"), ("icon", .str builderIcon),
                               ("productName", productName),
                               ("directories", .obj [("buildResources", .str (ctx.appPaths.resolveElectron ""))])])])
      (jget cfg "electron")
      (.obj [("packager", .obj [("dir", .str (pathJoin dd "UnPackaged")),
                                ("out", .str (pathJoin dd "Packaged"))]),
             ("builder", .obj [("directories", .obj [("app", .str (pathJoin dd "UnPackaged")),
                                                     ("output", .str (pathJoin dd "Packaged"))])])]))
    -- lines 1240-1245
    let cfg := if truthy (jget2 cfg "ctx" "bundlerName")
      then jset2 cfg "electron" "bundler" (jget2 cfg "ctx" "bundlerName")
      else if !truthy (jget2 cfg "electron" "bundler")
      then jset2 cfg "electron" "bundler" (.str ext.electronGetDefaultName)
      else cfg
    -- line 1247
    if ext.electronArgvOk == false then .error (.fatalExit "ensureElectronArgv failed", st) else do
    let cfg ←
      if sEq (jget2 cfg "electron" "bundler") (.str "packager") then do
        -- lines 1249-1256
        let cfg := if truthy (jget2 cfg "ctx" "targetName")
          then jset3 cfg "electron" "packager" "platform" (jget2 cfg "ctx" "targetName") else cfg
        pure (if truthy (jget2 cfg "ctx" "archName")
          then jset3 cfg "electron" "packager" "arch" (jget2 cfg "ctx" "archName") else cfg)
      else do
        -- lines 1257-1281
        let cfg := jset2 cfg "electron" "builder" (.obj [("config", jget2 cfg "electron" "builder")])
        let tn := jget2 cfg "ctx" "targetName"
        let cfg := if sEq tn (.str "mac") || sEq tn (.str "darwin") || sEq tn (.str "all")
          then jset3 cfg "electron" "builder" "mac" (.arr []) else cfg
        let cfg := if sEq tn (.str "linux") || sEq tn (.str "all")
          then jset3 cfg "electron" "builder" "linux" (.arr []) else cfg
        let cfg := if sEq tn (.str "win") || sEq tn (.str "win32") || sEq tn (.str "all")
          then jset3 cfg "electron" "builder" "win" (.arr []) else cfg
        let cfg := if truthy (jget2 cfg "ctx" "archName")
          then jset3 cfg "electron" "builder" (jsTemplate (jget2 cfg "ctx" "archName")) (.bool true) else cfg
        pure (if truthy (jget2 cfg "ctx" "publish")
          then jset3 cfg "electron" "builder" "publish" (jget2 cfg "ctx" "publish") else cfg)
    -- line 1283: `ensureInstall` (external side effect)
    .ok (st, cfg)

/-- Lines 1287-1292: html template variables. -/
def passHtmlVariables (ctx : Ctx) (cfg : JsVal) : JsVal :=
  jset cfg "htmlVariables" (jsMerge (.obj [
    ("ctx", jget cfg "ctx"),
    ("process", .obj [("env", jget2 cfg "build" "env")]),
    ("productName", escapeHTMLTagContent ctx.appPkg.productName),
    ("productDescription", escapeHTMLAttribute ctx.appPkg.description)]) (jget cfg "htmlVariables"))

/-- Lines 1294-1296: capacitor splash-screen mount hook. -/
def passCapacitorSplash (ctx : Ctx) (cfg : JsVal) : JsVal :=
  if ctx.mode.capacitor
      && truthy (jget3 cfg "metaConf" "versions" "capacitorPluginSplashscreen")
      && !(sEq (jget2 cfg "capacitor" "hideSplashscreen") (.bool false)) then
    jset2 cfg "metaConf" "needsAppMountHook" (.bool true)
  else cfg

end Quasar

namespace Quasar

open JsVal

/-! ### `#computeConfig` (source lines 413-1298) -/

/-- Lines 462-1298: the derivation pipeline run on the value returned by the
user's configuration function, chaining the passes in source order. -/
def deriveConfig (ext : Externals) (opts : Opts) (failOnError : Bool)
    (st : SessState) (userCfg : JsVal) : DerivM (SessState × JsVal) := do
  let ctx := st.ctx
  -- lines 466-539
  let rawQuasarConf := jsMerge (defaultSkeleton ctx) userCfg
  -- lines 541-547
  let metaConf := initialMetaConf ctx ext
  -- lines 549-551
  let rawQuasarConf :=
    if sEq (jget rawQuasarConf "animations") (.str "all")
    then jset rawQuasarConf "animations" ext.animationsModule
    else rawQuasarConf
  -- lines 553-569
  let rawQuasarConf ←
    match ext.runHook rawQuasarConf with
    | .ok v => pure v
    | .error _ =>
      bail failOnError st "One of your installed App Extensions failed to run"
        "One of your installed App Extensions failed to run."
  -- lines 571-574
  let cfg := jset rawQuasarConf "metaConf" metaConf
  let cfg := passSsrBase ctx cfg
  let (st, cfg) ← passDevServerAddress ext opts failOnError st cfg
  let cfg := passAssetLists cfg
  let cfg := passFramework cfg
  let cfg := passEslint cfg
  -- lines 716-815
  let cfg := jset cfg "build" (jsMerge (buildDefaults ctx ext cfg) (jget cfg "build"))
  let cfg := passVendor cfg
  let cfg ← passTranspileBanner st cfg
  let cfg := passEsbuildTarget cfg
  let cfg := passRouterModeByMode ctx cfg
  let cfg := passBexDistDir ctx cfg
  let cfg := passDistDirAbs ctx cfg
  let cfg ← passPublicPath ctx st cfg
  let cfg ← passSourceFiles ext failOnError st cfg
  let cfg := passStoreMeta ctx ext cfg
  let cfg := passCapacitorParams ctx cfg
  let cfg := passServerTransform cfg
  let cfg := passSsl ctx ext cfg
  let (ctx2, cfg) := passSsr ctx cfg
  let st := { st with ctx := ctx2 }
  let (st, cfg) ← passDevServerMerge ext st cfg
  let cfg := passGzip cfg
  let cfg ← passPwa st.ctx ext failOnError st cfg
  let cfg := passAppUrl st.ctx cfg
  let cfg := passEnvAssign st.ctx cfg
  let cfg := passFileEnv ext cfg
  let (st, cfg) ← passElectron ext st userCfg cfg
  let cfg := passHtmlVariables st.ctx cfg
  let cfg := passCapacitorSplash st.ctx cfg
  .ok (st, cfg)

/-- The loaded config module's default export: whether it is a function, and
(when invoked) whether it throws or which `RawConfig` it returns. -/
structure FnSpec where
  isFunction : Bool
  invoke : Except Unit JsVal

/-- `#computeConfig(quasarConfigFn, failOnError)` (source lines 413-1298):
the three early shape/runtime checks with their temp-file removals, the
unconditional temp-file removal of line 462, then the derivation. -/
def computeConfig (ext : Externals) (opts : Opts) (failOnError : Bool)
    (st : SessState) (fnSpec : FnSpec) : DerivM (SessState × JsVal) := do
  -- lines 414-425 (`fse.removeSync` at 415)
  if fnSpec.isFunction != true then
    let st := { st with tempExists := false }
    bail failOnError st "The default export value of the quasar.config file is not a function."
      "The default export value of the quasar.config file is not a function. Please fix it."
  else do
    -- lines 427-447: no temp-file removal on this failure path
    let userCfg ←
      match fnSpec.invoke with
      | .ok v => pure v
      | .error _ =>
        bail failOnError st "The quasar.config file has runtime errors."
          "The quasar.config file has runtime errors. Please fix the errors in the original file."
    -- lines 449-460 (`fse.removeSync` at 450)
    if isObjectLike userCfg == false then
      let st := { st with tempExists := false }
      bail failOnError st "The quasar.config file does not default exports an Object."
        "The quasar.config file does not default exports an Object. Please fix it."
    else
      -- line 462: unconditional removal before the derivation
      let st := { st with tempExists := false }
      deriveConfig ext opts failOnError st userCfg

/-! ### `#build`, `#buildAndWatch`, `watch` (source lines 239-409) -/

/-- One esbuild attempt as observed by the module: whether the compile
reported errors, and the result of dynamically loading the artifact
(`.error` = the import itself threw). -/
structure CycleInput where
  compileErrors : Bool
  importResult : Except Unit FnSpec

/-- What one compile cycle does, as observed by the caller and the process. -/
inductive CycleOutcome where
  | silentDiscard
  | procExit (msg : String)
  | warnedNoUpdate (msg : String)
  | firstResolved (cfg : JsVal)
  | updateScheduled (cfg : JsVal)

def CycleOutcome.isProcExit : CycleOutcome → Bool
  | .procExit _ => true
  | _ => false

def CycleOutcome.isWarnedNoUpdate : CycleOutcome → Bool
  | .warnedNoUpdate _ => true
  | _ => false

def CycleOutcome.isSilentDiscard : CycleOutcome → Bool
  | .silentDiscard => true
  | _ => false

/-- Whether the outcome hands a config to the debounced rebuild callback
(`this.#opts.watch(quasarConf)`, line 398). -/
def CycleOutcome.isUpdateScheduled : CycleOutcome → Bool
  | .updateScheduled _ => true
  | _ => false

/-- Whether the outcome delivers a config to the caller (synchronously or
through the debounced rebuild callback). -/
def CycleOutcome.deliversConfig : CycleOutcome → Bool
  | .firstResolved _ => true
  | .updateScheduled _ => true
  | _ => false

/-- The state of one watch session: `isFirst` is the closure flag of the
`quasar:watcher` plugin (line 316), `isWatching` is `this.#isWatching`
(lines 176, 247-249), `current` is the `ResolvedConfig` currently held by
the caller (set by the first resolution; later updates arrive only through
the debounced callback). -/
structure WatchState where
  isFirst : Bool
  isWatching : Bool
  sess : SessState
  current : Option JsVal

/-- `watch()` (source lines 246-249): the caller signals the session live. -/
def watchOn (st : WatchState) : WatchState := { st with isWatching := true }

/-- One invocation of the esbuild `onEnd` callback registered by
`#buildAndWatch` (source lines 326-399). -/
def watchCycle (ext : Externals) (opts : Opts) (st : WatchState) (inp : CycleInput) :
    CycleOutcome × WatchState :=
  -- esbuild writes the compiled artifact (`outfile`, line 268) on every
  -- error-free attempt before `onEnd` runs
  let st := if inp.compileErrors then st
    else { st with sess := { st.sess with tempExists := true } }
  -- lines 327-330: not ready yet; watch() has not been issued yet
  if st.isFirst == false && st.isWatching == false then (.silentDiscard, st)
  -- lines 332-343 (`fse.removeSync` at 333)
  else if inp.compileErrors then
    let st := { st with sess := { st.sess with tempExists := false } }
    if st.isFirst then
      (.procExit "Could not compile the quasar.config file because it has errors.", st)
    else
      (.warnedNoUpdate "Could not compile the quasar.config file because it has errors. Please fix them.", st)
  else
    match inp.importResult with
    -- lines 352-378: no temp-file removal on an import failure
    | .error _ =>
      if st.isFirst then (.procExit "Importing quasar.config file results in error.", st)
      else (.warnedNoUpdate "Importing quasar.config file results in error.", st)
    | .ok fnSpec =>
      -- line 385: `#computeConfig(quasarConfigFn, isFirst)`
      match computeConfig ext opts st.isFirst st.sess fnSpec with
      | .error (.fatalExit msg, sess) => (.procExit msg, { st with sess := sess })
      | .error (.warned msg, sess) => (.warnedNoUpdate msg, { st with sess := sess })
      | .ok (sess, cfg) =>
        if st.isFirst then
          -- lines 391-394: resolve the pending promise of the original caller
          (.firstResolved cfg, { st with isFirst := false, sess := sess, current := some cfg })
        else
          -- lines 397-398: hand the config to the debounced `this.#opts.watch`
          (.updateScheduled cfg, { st with sess := sess })

/-- `#build` (source lines 273-304): the one-shot path of `read()`.
Compile failure removes the artifact then terminates; an import failure
terminates with the artifact left in place for inspection; otherwise
`#computeConfig(quasarConfigFn, true)` runs. -/
def buildOneShot (ext : Externals) (opts : Opts) (st : SessState) (inp : CycleInput) :
    CycleOutcome × SessState :=
  if inp.compileErrors then
    -- lines 277-282 (`fse.removeSync` at 278)
    (.procExit "Could not compile the quasar.config file because it has errors.",
     { st with tempExists := false })
  else
    -- esbuild wrote the compiled artifact (`outfile`, line 268)
    let st := { st with tempExists := true }
    match inp.importResult with
    | .error _ =>
      -- lines 292-301: fatal without temp-file removal
      (.procExit "The quasar.config file has runtime errors (import failed).", st)
    | .ok fnSpec =>
      match computeConfig ext opts true st fnSpec with
      | .error (.fatalExit msg, sess) => (.procExit msg, sess)
      | .error (.warned msg, sess) => (.warnedNoUpdate msg, sess)
      | .ok (sess, cfg) => (.firstResolved cfg, sess)

/-! ### The debounced rebuild delivery (source lines 186-192, 397-398) -/

/-- The debounce wait configured in the constructor:
`this.#opts.watch = debounce(watch, 550)` (source line 191). -/
def watchDebounceWait : Nat := 550

/-- Modelled from the spec: the debounce wrapper is `lodash/debounce.js`, an
external dependency not under `src/`. Spec section 4.2: "multiple
rebuild-ready events arriving within the window collapse into exactly one
delivered update, and the update delivered is always derived from the most
recent event, never an earlier one"; lodash's default is trailing-edge: each
call restarts a `wait`-ms timer and, when the timer expires, the wrapped
callback fires once with the arguments of the most recent call. Input: the
`updateScheduled` events of a session as (time, config) pairs in strictly
ascending time order; output: the deliveries to the caller's rebuild
callback. -/
def debounceFires (wait : Nat) : List (Nat × JsVal) → List (Nat × JsVal)
  | [] => []
  | (t, v) :: rest =>
    match rest with
    | [] => [(t + wait, v)]
    | (t', _) :: _ =>
      if t' - t < wait then debounceFires wait rest
      else (t + wait, v) :: debounceFires wait rest

/-- The deliveries produced by a burst of accepted (Live) rebuilds, as wired
in the constructor (line 191) and the watcher callback (line 398). -/
def deliveredUpdates (events : List (Nat × JsVal)) : List (Nat × JsVal) :=
  debounceFires watchDebounceWait events

end Quasar

namespace Quasar

open JsVal

/-! ### Concrete session instances

Representative contexts (spa/pwa/cordova dev, ssr prod), benign external
behaviour, and per-error-kind scenarios used by the theorems below. -/

def spaAppPaths : AppPaths := {
  srcDir := "/app/src", appDir := "/app",
  resolveSrc := fun p => "/app/src/" ++ p,
  resolveApp := fun p => "/app/" ++ p,
  resolveElectron := fun p => "/app/src-electron/" ++ p,
  resolveCordova := fun p => "/app/src-cordova/" ++ p }

def flagsOff : ModeFlags :=
  { spa := false, ssr := false, pwa := false, electron := false,
    cordova := false, capacitor := false, bex := false }

def baseCtx (m : ModeFlags) (nm : String) (dev : Bool) : Ctx := {
  dev := dev, prod := !dev, debug := false,
  mode := m,
  modeName := nm, targetName := "", archName := "", bundlerName := "",
  publish := .undefined, vueDevtools := false,
  appPaths := spaAppPaths, quasarPkgVersion := "2.16.0",
  appPkg := { pkgName := .str "demo-app", productName := .str "Demo App",
              description := .str "A demo" } }

def spaDevCtx : Ctx := baseCtx { flagsOff with spa := true } "spa" true
def pwaDevCtx : Ctx := baseCtx { flagsOff with pwa := true } "pwa" true
def cordovaDevCtx : Ctx := baseCtx { flagsOff with cordova := true } "cordova" true
def ssrProdCtx : Ctx := baseCtx { flagsOff with ssr := true } "ssr" false

/-- Externals where every delegated collaborator succeeds: the port prober
binds the requested port, hooks are identity, validations pass. -/
def benignExternals : Externals := {
  animationsModule := .arr [],
  runHook := fun cfg => .ok cfg,
  findClosestOpenPort := fun port _ => match port with
    | .num p => .ok p
    | _ => .error "ERROR_NETWORK_ADDRESS_NOT_AVAIL",
  getExternalIP := "192.168.1.7",
  appFilesValidationsOk := true,
  resolveExtension := fun _ => none,
  isMinimalTerminal := false,
  fileEnv := .obj [],
  usedEnvFiles := [],
  envFromCache := true,
  sslCertificate := .str "CERT",
  readFile := fun _ => .ok (.str "FILE"),
  electronGetDefaultName := "builder",
  electronArgvOk := true,
  platformIsLinux := true,
  iconPngExists := true,
  storeProviderPathKey := "stores",
  storeProviderName := "pinia",
  transformAssetUrls := .obj [],
  cssVariables := .obj [],
  versions := .obj [] }

/-- A session at construction time: nothing negotiated, nothing cached, no
temporary artifact on disk yet. -/
def freshSession (ctx : Ctx) : SessState := {
  ctx := ctx, address := none,
  addrGlobal := { cachedExternalHost := none, addressRunning := false },
  vueDevtoolsCache := none, electronInspectPort := none,
  probeCount := 0, tempExists := false }

/-- The loaded module behaviour for a user whose config function returns `{}`. -/
def emptyObjFn : FnSpec := { isFunction := true, invoke := .ok (.obj []) }

/-- Watch-mode options with address verification on (host/port not given on
the command line). -/
def watchOpts : Opts := { host := .undefined, port := .undefined, verifyAddress := true, watchMode := true }

/-- One-shot options (no watch callback supplied). -/
def oneShotOpts : Opts := { host := .undefined, port := .undefined, verifyAddress := false, watchMode := false }

/-- Cordova dev options without address verification. -/
def cordovaOpts : Opts := { host := .undefined, port := .undefined, verifyAddress := false, watchMode := true }

/-- A compile attempt that succeeded and whose loaded module returns `{}`. -/
def okInput : CycleInput := { compileErrors := false, importResult := .ok emptyObjFn }

def initialWatchState (ctx : Ctx) : WatchState :=
  { isFirst := true, isWatching := false, sess := freshSession ctx, current := none }

/-- The session right after the first successful build resolved, before the
caller issued `watch()` (FirstBuildPending). -/
def pendingState : WatchState :=
  (watchCycle benignExternals watchOpts (initialWatchState spaDevCtx) okInput).2

/-- The session after the first successful build and the caller's `watch()`
signal (Live). -/
def liveState (ctx : Ctx) : WatchState :=
  watchOn (watchCycle benignExternals watchOpts (initialWatchState ctx) okInput).2

def liveStateSpa : WatchState := liveState spaDevCtx

/-! ### Error scenarios (claim C1) -/

/-- The error kinds of spec section 7, each with a concrete scenario:
compile failure, dynamic-load failure, the two shape errors (default export
not a function / resolved value not an object), a runtime error thrown by the
config function, a failing app-extension hook, a network negotiation failure,
a failing file validation, and an invalid workbox strategy. -/
inductive ErrKind where
  | compileErr | loadErr | shapeFnErr | runtimeErr | shapeObjErr
  | pluginErr | networkErr | validationErr | workboxErr

/-- The context each scenario runs in (pwa for the workbox error, spa else). -/
def errCtx : ErrKind → Ctx
  | .workboxErr => pwaDevCtx
  | _ => spaDevCtx

/-- The external behaviour exhibiting each error kind. -/
def errExternals : ErrKind → Externals
  | .pluginErr => { benignExternals with runHook := fun _ => .error () }
  | .networkErr => { benignExternals with findClosestOpenPort := fun _ _ => .error "ERROR_NETWORK_PORT_NOT_AVAIL" }
  | .validationErr => { benignExternals with appFilesValidationsOk := false }
  | _ => benignExternals

/-- The cycle input exhibiting each error kind on the session's first cycle. -/
def errInputFirst : ErrKind → CycleInput
  | .compileErr => { compileErrors := true, importResult := .ok emptyObjFn }
  | .loadErr => { compileErrors := false, importResult := .error () }
  | .shapeFnErr => { compileErrors := false, importResult := .ok { isFunction := false, invoke := .ok (.obj []) } }
  | .runtimeErr => { compileErrors := false, importResult := .ok { isFunction := true, invoke := .error () } }
  | .shapeObjErr => { compileErrors := false, importResult := .ok { isFunction := true, invoke := .ok (.num 5) } }
  | .workboxErr =>
    let fnv : FnSpec := { isFunction := true, invoke := .ok (.obj [("pwa", .obj [("workboxMode", .str "junk")])]) }
    { compileErrors := false, importResult := .ok fnv }
  | _ => okInput

/-- The cycle input exhibiting each error kind on a later (Live) cycle. The
network failure needs a changed requested port so that the address cache
misses and negotiation re-runs. -/
def errInputLive : ErrKind → CycleInput
  | .networkErr =>
    let fnv : FnSpec := { isFunction := true, invoke := .ok (.obj [("devServer", .obj [("port", .num 9100)])]) }
    { compileErrors := false, importResult := .ok fnv }
  | k => errInputFirst k

/-! ### Load-outcome scenarios (claims C3, C4) -/

/-- The possible outcomes of one compile-and-load attempt. -/
inductive LoadKind where
  | okConfig | compileFailed | importThrew | notAFunction | fnThrew | notAnObject

def loadInput : LoadKind → CycleInput
  | .okConfig => okInput
  | .compileFailed => { compileErrors := true, importResult := .ok emptyObjFn }
  | .importThrew => { compileErrors := false, importResult := .error () }
  | .notAFunction => { compileErrors := false, importResult := .ok { isFunction := false, invoke := .ok (.obj []) } }
  | .fnThrew => { compileErrors := false, importResult := .ok { isFunction := true, invoke := .error () } }
  | .notAnObject => { compileErrors := false, importResult := .ok { isFunction := true, invoke := .ok (.num 5) } }

/-- Whether the artifact survives a cycle with the given load outcome:
exactly the dynamic-import failure and the config-function throw leave it in
place (for inspection, as the fatal/warn messages direct). -/
def artifactSurvives : LoadKind → Bool
  | .importThrew => true
  | .fnThrew => true
  | _ => false

/-! ### Documented top-level keys (claim C2) -/

/-- The documented array-valued and object-valued top-level keys of the
`ResolvedConfig` schema, checked for presence with the right type. -/
def documentedKeysTyped (cfg : JsVal) : Bool :=
  (["boot", "css", "extras", "animations"].all (fun k => isArr (jget cfg k)))
  && (["framework", "vendor", "eslint", "sourceFiles", "htmlVariables", "devServer",
      "build", "ssr", "pwa", "electron", "cordova", "capacitor", "bex", "metaConf"].all
      (fun k => isObj (jget cfg k)))

end Quasar

namespace Quasar

open JsVal

/-! ### Remaining definitions used by the theorems -/

def minTermExternals (b : Bool) : Externals := { benignExternals with isMinimalTerminal := b }

/-- The config value as it reaches the dev-server address pass for an empty
user config in spa dev mode (skeleton merge plus `metaConf`, lines 466-574). -/
def skeletonCfgSpa : JsVal :=
  jset (jsMerge (defaultSkeleton spaDevCtx) (.obj [])) "metaConf"
    (initialMetaConf spaDevCtx benignExternals)

/-- Options explicitly requesting `{ host: "0.0.0.0", port: 9000 }` with
address verification on (the spec's own example request). -/
def spaRequestOpts : Opts :=
  { host := .str "0.0.0.0", port := .num 9000, verifyAddress := true, watchMode := true }

/-- Benign externals whose port prober returns the given result. -/
def probeExternals (r : Except String Rat) : Externals :=
  { benignExternals with findClosestOpenPort := fun _ _ => r }

/-- The first negotiation run for `spaRequestOpts` with the prober binding
port 9000, and its resulting session state and config. -/
def firstAddrRun : DerivM (SessState × JsVal) :=
  passDevServerAddress (probeExternals (.ok 9000)) spaRequestOpts true
    (freshSession spaDevCtx) skeletonCfgSpa

def firstAddrState : SessState :=
  match firstAddrRun with
  | .ok (s, _) => s
  | .error (_, s) => s

def firstAddrCfg : JsVal :=
  match firstAddrRun with
  | .ok (_, c) => c
  | .error _ => .undefined

/-- Whether every consecutive pair of events is closer than `wait`
(a single debounce burst). -/
def gapsWithin (wait : Nat) : List (Nat × JsVal) → Bool
  | [] => true
  | [_] => true
  | (t, _) :: (t', v) :: rest => decide (t' - t < wait) && gapsWithin wait ((t', v) :: rest)

/-- Three rebuild-ready events 100 ms apart (inside one 550 ms window). -/
def burstEvents : List (Nat × JsVal) :=
  [(0, .str "cfgA"), (100, .str "cfgB"), (200, .str "cfgC")]

end Quasar

namespace Quasar

open JsVal

/-! ### Theorems settling the claims -/

/-- Trailing-edge debounce collapses a single burst (every gap below `wait`)
into exactly one delivery, carrying the last event's value, `wait` after it. -/
theorem debounce_burst (wait : Nat) : ∀ (events : List (Nat × JsVal)) (h1 : events ≠ [])
    (h2 : gapsWithin wait events = true),
    debounceFires wait events = [((events.getLast h1).1 + wait, (events.getLast h1).2)]
  | [], h1, _ => absurd rfl h1
  | [(_, _)], _, _ => rfl
  | (t, v) :: (t2, v2) :: rest, _, h2 => by
    simp only [gapsWithin, Bool.and_eq_true, decide_eq_true_eq] at h2
    have hrec := debounce_burst wait ((t2, v2) :: rest) (by simp) h2.2
    have hstep : debounceFires wait ((t, v) :: (t2, v2) :: rest)
        = if t2 - t < wait then debounceFires wait ((t2, v2) :: rest)
          else (t + wait, v) :: debounceFires wait ((t2, v2) :: rest) := rfl
    rw [hstep, if_pos h2.1, hrec]
    rfl

/-- C1: for each error kind (compile, dynamic load, both shape errors, a
config-function runtime error, a failing app-extension hook, a network
negotiation failure, a failing file validation, an invalid workbox strategy),
the error on the session's very first compilation cycle terminates the
process, while the identical error on a Live watch cycle only emits a
warning, invokes no rebuild callback (no update delivered), and leaves the
previously delivered `ResolvedConfig` unchanged. -/
theorem quasar_first_error_fatal_later_warned (k : ErrKind) :
    (watchCycle (errExternals k) watchOpts (initialWatchState (errCtx k)) (errInputFirst k)).1.isProcExit = true
    ∧ (watchCycle (errExternals k) watchOpts (liveState (errCtx k)) (errInputLive k)).1.isWarnedNoUpdate = true
    ∧ (watchCycle (errExternals k) watchOpts (liveState (errCtx k)) (errInputLive k)).1.deliversConfig = false
    ∧ (watchCycle (errExternals k) watchOpts (liveState (errCtx k)) (errInputLive k)).2.current
        = (liveState (errCtx k)).current := by
  cases k <;> exact ⟨by rfl, by rfl, by rfl, by rfl⟩

/-- C2: an empty `RawConfig` (`{}`) still derives successfully and the
resulting `ResolvedConfig` carries every documented top-level key with the
right type (arrays for boot/css/extras/animations, objects for the rest,
`metaConf` included), in spa dev, ssr prod and pwa dev contexts. -/
theorem quasar_empty_config_has_all_documented_keys :
    (match computeConfig benignExternals watchOpts true (freshSession spaDevCtx) emptyObjFn with
     | .ok (_, cfg) => documentedKeysTyped cfg
     | .error _ => false) = true
    ∧ (match computeConfig benignExternals oneShotOpts true (freshSession ssrProdCtx) emptyObjFn with
     | .ok (_, cfg) => documentedKeysTyped cfg
     | .error _ => false) = true
    ∧ (match computeConfig benignExternals watchOpts true (freshSession pwaDevCtx) emptyObjFn with
     | .ok (_, cfg) => documentedKeysTyped cfg
     | .error _ => false) = true :=
  ⟨by rfl, by rfl, by rfl⟩

/-- C3 counterexample: in one-shot mode, a dynamic-load failure (the import
of the compiled artifact throwing) is a fatal exit that leaves the temporary
artifact on disk, refuting "removed on every exit path". -/
theorem quasar_oneshot_keeps_artifact_on_load_failure :
    (buildOneShot benignExternals oneShotOpts (freshSession spaDevCtx) (loadInput .importThrew)).1.isProcExit = true
    ∧ (buildOneShot benignExternals oneShotOpts (freshSession spaDevCtx) (loadInput .importThrew)).2.tempExists = true :=
  ⟨by rfl, by rfl⟩

/-- C3 amended: in one-shot mode the temporary artifact is removed on compile
failure, on both shape-error paths and on success, and survives exactly the
dynamic-import failure and the config-function throw (where the fatal message
directs the user to inspect it and delete it manually). -/
theorem quasar_oneshot_artifact_removal_characterized (k : LoadKind) :
    (buildOneShot benignExternals oneShotOpts (freshSession spaDevCtx) (loadInput k)).2.tempExists
      = artifactSurvives k := by
  cases k <;> exact by rfl

/-- C4 counterexample: a successful Live rebuild (a non-fatal path that
schedules an update) ends with the temporary artifact deleted, refuting
"deleted only on a terminal/fatal error path and never after a successful
rebuild". -/
theorem quasar_watch_successful_rebuild_deletes_artifact :
    (watchCycle benignExternals watchOpts liveStateSpa okInput).1.isUpdateScheduled = true
    ∧ (watchCycle benignExternals watchOpts liveStateSpa okInput).1.isProcExit = false
    ∧ (watchCycle benignExternals watchOpts liveStateSpa okInput).2.sess.tempExists = false :=
  ⟨by rfl, by rfl, by rfl⟩

/-- C4 amended: in watch mode the artifact is deleted on compile-failure
reports and on every cycle whose loaded value passes the object check —
including every successful rebuild, where line 462 removes it before
derivation — and survives a cycle exactly when the dynamic import or the
config-function invocation throws. -/
theorem quasar_watch_artifact_removal_characterized (k : LoadKind) :
    (watchCycle benignExternals watchOpts liveStateSpa (loadInput k)).2.sess.tempExists
      = artifactSurvives k := by
  cases k <;> exact by rfl

/-- C5 counterexample: a rebuild completing in FirstBuildPending (first build
resolved, `watch()` not yet called) is discarded with no warning: the handler
returns through the silent-discard path (lines 327-330), not the warning
path, refuting "a warning is emitted for the discarded rebuild". -/
theorem quasar_pending_rebuild_discarded_silently :
    (watchCycle benignExternals watchOpts pendingState okInput).1.isSilentDiscard = true
    ∧ (watchCycle benignExternals watchOpts pendingState okInput).1.isWarnedNoUpdate = false
    ∧ (watchCycle benignExternals watchOpts pendingState okInput).1.deliversConfig = false :=
  ⟨by rfl, by rfl, by rfl⟩

/-- C5 amended: every rebuild completing while the session is in
FirstBuildPending is discarded silently — the rebuild callback is not
invoked, no warning is emitted, and the caller's config is unchanged —
whatever the cycle's input and external behaviour. -/
theorem quasar_pending_rebuilds_all_discarded (ext : Externals) (opts : Opts)
    (st : WatchState) (inp : CycleInput)
    (h1 : st.isFirst = false) (h2 : st.isWatching = false) :
    (watchCycle ext opts st inp).1.isSilentDiscard = true
    ∧ (watchCycle ext opts st inp).1.deliversConfig = false
    ∧ (watchCycle ext opts st inp).2.current = st.current := by
  cases hc : inp.compileErrors <;>
    simp [watchCycle, hc, h1, h2, CycleOutcome.isSilentDiscard, CycleOutcome.deliversConfig]

/-- C5 amended witness: concrete FirstBuildPending session, successful
rebuild input. -/
theorem quasar_pending_rebuilds_all_discarded_witness :
    (watchCycle benignExternals watchOpts
      { isFirst := false, isWatching := false, sess := freshSession spaDevCtx, current := some (.obj []) }
      okInput).1.isSilentDiscard = true :=
  (quasar_pending_rebuilds_all_discarded benignExternals watchOpts _ okInput rfl rfl).1

/-- C6: once Live, accepted rebuilds are handed to the 550 ms-debounced
callback (`updateScheduled`), and a burst of rebuild-ready events whose gaps
all lie inside one debounce window produces exactly one delivery, derived
from the most recent event of the burst. -/
theorem quasar_live_debounce_coalesces (events : List (Nat × JsVal)) (h1 : events ≠ [])
    (h2 : gapsWithin watchDebounceWait events = true) :
    deliveredUpdates events
      = [((events.getLast h1).1 + watchDebounceWait, (events.getLast h1).2)]
    ∧ (watchCycle benignExternals watchOpts liveStateSpa okInput).1.isUpdateScheduled = true :=
  ⟨debounce_burst watchDebounceWait events h1 h2, by rfl⟩

/-- C6 witness: three rebuild-ready events 100 ms apart collapse into one
delivery carrying the last config. -/
theorem quasar_live_debounce_coalesces_witness :
    deliveredUpdates burstEvents = [(750, .str "cfgC")]
    ∧ (watchCycle benignExternals watchOpts liveStateSpa okInput).1.isUpdateScheduled = true :=
  quasar_live_debounce_coalesces burstEvents (by simp [burstEvents]) (by rfl)

/-- C7: once a requested `{host: "0.0.0.0", port: 9000}` pair has been bound
successfully (whatever port the prober returned), an identical subsequent
request short-circuits to the cached bound pair: the session state is
returned untouched (in particular `probeCount` and the cached external host
are unchanged — no port probing or host resolution re-runs) and the bound
host/port delivered equal those of the first cycle. -/
theorem quasar_address_cache_short_circuits (r : Except String Rat) (ext2 : Externals)
    (fail fail2 : Bool) (st1 : SessState) (cfg1 : JsVal)
    (h : passDevServerAddress (probeExternals r) spaRequestOpts fail
          (freshSession spaDevCtx) skeletonCfgSpa = .ok (st1, cfg1)) :
    ∃ cfg2, passDevServerAddress ext2 spaRequestOpts fail2 st1 skeletonCfgSpa = .ok (st1, cfg2)
      ∧ jget2 cfg2 "devServer" "host" = jget2 cfg1 "devServer" "host"
      ∧ jget2 cfg2 "devServer" "port" = jget2 cfg1 "devServer" "port" := by
  rcases r with e | p
  · exact absurd h (by intro hcon; injection hcon)
  · injection h with h'
    cases h'
    exact ⟨_, rfl, rfl, rfl⟩

/-- C7 witness: the prober binds port 9000 on the first request; the second
identical request returns the same bound pair with the session untouched. -/
theorem quasar_address_cache_short_circuits_witness :
    ∃ cfg2, passDevServerAddress benignExternals spaRequestOpts false firstAddrState skeletonCfgSpa
        = .ok (firstAddrState, cfg2)
      ∧ jget2 cfg2 "devServer" "host" = jget2 firstAddrCfg "devServer" "host"
      ∧ jget2 cfg2 "devServer" "port" = jget2 firstAddrCfg "devServer" "port" :=
  quasar_address_cache_short_circuits (.ok 9000) benignExternals true false
    firstAddrState firstAddrCfg (by rfl)

/-- C8: public-path formatting: empty input yields the root path, a bare
segment gains leading and trailing slashes, a full URL keeps scheme and host
with only a trailing slash enforced; the router base of
`http://host:1234/app/sub?x=1#h` is the path component `/app/sub/` with query
and fragment ignored. -/
theorem quasar_public_path_router_base_formatting :
    formatPublicPath "" = "/"
    ∧ formatPublicPath "foo" = "/foo/"
    ∧ formatPublicPath "http://x.com/a" = "http://x.com/a/"
    ∧ formatRouterBase "http://host:1234/app/sub?x=1#h" = some "/app/sub/" :=
  ⟨by decide, by decide, by decide, by decide⟩

/-- C9: every string asset entry starting with `~` maps to its verbatim path
(marker stripped) and every other string entry to the prefix plus the entry;
de-duplication on resolved path keeps the first occurrence (any two entries
with equal string paths collapse to the first); hence an override-prefixed
object entry and a plain string entry resolving to the same path collapse to
the first of them. -/
theorem quasar_asset_normalization_and_dedup :
    (∀ (pfx s : String), parseAssetProperty pfx (.str s)
      = .obj [("path", .str (if strStartsWith s "~" then strDrop s 1 else pfx ++ "/" ++ s))])
    ∧ (∀ (a b : JsVal) (p : String), jget a "path" = .str p → jget b "path" = .str p →
        uniquePathDedup [a, b] = [a])
    ∧ normalizeAssetList "src/css"
        [.obj [("path", .str "~src/css/app.css"), ("server", .bool false)], .str "app.css"]
      = [.obj [("path", .str "src/css/app.css"), ("server", .bool false)]] := by
  refine ⟨fun pfx s => rfl, ?_, by rfl⟩
  intro a b p ha hb
  simp [uniquePathDedup, List.enum, List.findIdx?, ha, hb, sEq, List.enumFrom]

/-- C9 witness: the de-duplication fact applied to two concrete entries with
the same resolved path keeps the first. -/
theorem quasar_asset_normalization_and_dedup_witness :
    uniquePathDedup [JsVal.obj [("path", .str "src/css/app.css"), ("server", .bool false)],
                     JsVal.obj [("path", .str "src/css/app.css")]]
      = [JsVal.obj [("path", .str "src/css/app.css"), ("server", .bool false)]] :=
  quasar_asset_normalization_and_dedup.2.1
    (JsVal.obj [("path", .str "src/css/app.css"), ("server", .bool false)])
    (JsVal.obj [("path", .str "src/css/app.css")]) "src/css/app.css" rfl rfl

/-- C10: whenever derivation runs in dev mode and returns a config, the
`devServer` object carries no `open` key; in browser-served modes the
configured auto-open value surfaces only as `metaConf.openBrowser`, forced to
`false` on minimal terminals, while in cordova dev mode no `openBrowser`
metadata is produced at all. -/
theorem quasar_devserver_open_always_deleted (minTerm : Bool) :
    (match computeConfig (minTermExternals minTerm) watchOpts true (freshSession spaDevCtx) emptyObjFn with
     | .ok (_, cfg) =>
       !hasKey (jget cfg "devServer") "open"
         && sEq (jget2 cfg "metaConf" "openBrowser") (.bool !minTerm)
     | .error _ => false) = true
    ∧ (match computeConfig (minTermExternals minTerm) cordovaOpts true (freshSession cordovaDevCtx) emptyObjFn with
     | .ok (_, cfg) =>
       !hasKey (jget cfg "devServer") "open" && !hasKey (jget cfg "metaConf") "openBrowser"
     | .error _ => false) = true := by
  cases minTerm <;> exact ⟨by rfl, by rfl⟩

end Quasar
